import Mathlib

/-!
# Verification of the fiapx video worker

Shallow embedding of the worker's job execution pipeline
(`app/src/use_cases/process_video.py`, `ProcessVideoUseCase.execute`) and
of the message-consumption callback (`app/main.py`, `callback`).

External collaborators (the S3 client, the frame extractor, the repository,
the notifier) are modelled by an environment record that fixes the outcome
of each call; local disk state is a list of paths; metric and repository
side effects are accumulated in an explicit run state.
-/

namespace Worker

/-- Job status, mirroring `VideoStatus` from `src/domain/entities`. -/
inductive VideoStatus
  | pending
  | processing
  | completed
  | error
deriving DecidableEq, Repr

/-- In-memory projection of a job record (`Video` entity): id, source
filename, status and the nullable artifact location `zip_path`. -/
structure Video where
  id : Nat
  filename : String
  status : VideoStatus
  zip_path : Option String := none
deriving DecidableEq, Repr

/-- Python exceptions relevant to the pipeline: `boto3.exceptions.ClientError`
(caught by the first handler), a generic `Exception`, and `ValueError`
(raised on job-not-found). The payload is the message `str(e)`. -/
inductive PyError
  | clientError (msg : String)
  | generic (msg : String)
  | valueError (msg : String)
deriving DecidableEq, Repr

/-- Constructor-injected configuration of `ProcessVideoUseCase`. -/
structure Config where
  uploads_dir : String
  outputs_dir : String
  s3_bucket_name : String
deriving DecidableEq, Repr

/-- Outcomes of the external calls made during one `execute` run.
`none` in a `*Fail` field means the call succeeds; `some e` means it raises
`e`.  `job` is the repository's answer to `get_by_id`, `userEmail` the
answer to `get_user_email_by_video`.  `clock0` and `elapsed` model
`time.time()` at entry and the (nonnegative) wall time spent. -/
structure Env where
  job : Option Video
  extractResult : Except PyError String
  updProcessingFail : Option PyError := none
  downloadFail : Option PyError := none
  uploadFail : Option PyError := none
  updCompletedFail : Option PyError := none
  updErrorFail : Option PyError := none
  userEmail : Option String := none
  notifyFail : Option PyError := none
  clock0 : Int := 0
  elapsed : Nat := 0
deriving Repr

/-- A recorded `notifier.notify_error(email, filename, cause)` call. -/
structure Notification where
  email : String
  filename : String
  cause : String
deriving DecidableEq, Repr

/-- A recorded `s3_client.upload_file(localPath, bucket, key)` call. -/
structure UploadCall where
  localPath : String
  bucket : String
  key : String
deriving DecidableEq, Repr

/-- Observable side effects of one pipeline run: local filesystem, the
`update_status` calls made and those that were persisted, S3 upload calls,
the Prometheus counters (`videos_processed_total` by label,
`video_processing_errors_total`), the histogram observations, the number of
`get_user_email_by_video` calls, and notifier calls. -/
structure ExecState where
  fs : List String
  updateCalls : List Video
  persisted : List Video
  uploads : List UploadCall
  metricProcessing : Nat
  metricCompleted : Nat
  metricError : Nat
  metricErrorsTotal : Nat
  durationObs : List Int
  emailLookups : Nat
  notifications : List Notification
deriving DecidableEq, Repr

/-- `os.path.join` for a directory and a bare filename. -/
def pathJoin (d f : String) : String := d ++ "/" ++ f

/-- A path comes to exist on the local filesystem (set semantics). -/
def fsAdd (fs : List String) (p : String) : List String :=
  if p ∈ fs then fs else p :: fs

/-- `os.remove` guarded by `os.path.exists`: afterwards the path is absent. -/
def fsRemove (fs : List String) (p : String) : List String :=
  fs.filter (fun q => q ≠ p)

/-- The S3 key for the produced archive:
`f"processed_videos/{video_id}/{zip_filename}"`. -/
def s3ZipKey (video_id : Nat) (zip_filename : String) : String :=
  "processed_videos/" ++ toString video_id ++ "/" ++ zip_filename

/-- The durable address stored in `zip_path`:
`f"https://{bucket}.s3.amazonaws.com/{key}"`. -/
def s3Url (bucket key : String) : String :=
  "https://" ++ bucket ++ ".s3.amazonaws.com/" ++ key

/-- The cause string passed to the notifier: the `ClientError` handler uses
`f"S3 Operation Failed: {str(s3_error)}"`, the generic handler `str(e)`. -/
def errorCause : PyError → String
  | .clientError m => "S3 Operation Failed: " ++ m
  | .generic m => m
  | .valueError m => m

/-- State at pipeline entry: only the pre-existing local files. -/
def initState (fs0 : List String) : ExecState :=
  { fs := fs0, updateCalls := [], persisted := [], uploads := [],
    metricProcessing := 0, metricCompleted := 0, metricError := 0,
    metricErrorsTotal := 0, durationObs := [], emailLookups := 0,
    notifications := [] }

/-- Result of the `try` body: the state, the current `video` projection,
the bound `zip_local_path` (set once extraction returned), and the body's
outcome. -/
structure BodyResult where
  st : ExecState
  video : Video
  zip_local_path : Option String
  outcome : Except PyError Unit
deriving Repr

/-- The `try` body of `execute` (steps 2-4 and the COMPLETED transition):
download from `uploads/{filename}`, extract frames to a zip, upload the zip
under `processed_videos/{video_id}/{zip_filename}`, then set
`status = COMPLETED`, `zip_path = s3_url` and persist. -/
def tryBody (env : Env) (cfg : Config) (video : Video) (video_id : Nat)
    (video_local_path : String) (st : ExecState) : BodyResult :=
  match env.downloadFail with
  | some e => ⟨st, video, none, Except.error e⟩
  | none =>
    let st := { st with fs := fsAdd st.fs video_local_path }
    match env.extractResult with
    | Except.error e => ⟨st, video, none, Except.error e⟩
    | Except.ok zip_filename =>
      let zip_local_path := pathJoin cfg.outputs_dir zip_filename
      let st := { st with fs := fsAdd st.fs zip_local_path }
      let key := s3ZipKey video_id zip_filename
      let st := { st with uploads :=
        st.uploads ++ [⟨zip_local_path, cfg.s3_bucket_name, key⟩] }
      match env.uploadFail with
      | some e => ⟨st, video, some zip_local_path, Except.error e⟩
      | none =>
        let url := s3Url cfg.s3_bucket_name key
        let videoDone :=
          { video with status := VideoStatus.completed, zip_path := some url }
        let st := { st with updateCalls := st.updateCalls ++ [videoDone] }
        match env.updCompletedFail with
        | some e => ⟨st, videoDone, some zip_local_path, Except.error e⟩
        | none =>
          let st := { st with persisted := st.persisted ++ [videoDone],
                              metricCompleted := st.metricCompleted + 1 }
          ⟨st, videoDone, some zip_local_path, Except.ok ()⟩

/-- The two `except` handlers (identical up to the cause text): set
`status = ERROR` on the current projection (leaving `zip_path` as it is),
persist, bump the `error` outcome label and the error counter, look up the
user's email and, when present, notify; finally re-raise the original
error.  A failure of the handler's own `update_status` or of the notifier
replaces the propagated error, as raising inside `except` does in Python. -/
def errorHandler (env : Env) (video : Video) (filename : String)
    (e : PyError) (st : ExecState) : ExecState × Except PyError Unit :=
  let videoErr := { video with status := VideoStatus.error }
  let st := { st with updateCalls := st.updateCalls ++ [videoErr] }
  match env.updErrorFail with
  | some e2 => (st, Except.error e2)
  | none =>
    let st := { st with persisted := st.persisted ++ [videoErr],
                        metricError := st.metricError + 1,
                        metricErrorsTotal := st.metricErrorsTotal + 1,
                        emailLookups := st.emailLookups + 1 }
    match env.userEmail with
    | some em =>
      let st := { st with notifications :=
        st.notifications ++ [⟨em, filename, errorCause e⟩] }
      match env.notifyFail with
      | some e3 => (st, Except.error e3)
      | none => (st, Except.error e)
    | none => (st, Except.error e)

/-- `ProcessVideoUseCase.execute(video_id, filename)`.  Mirrors the source:
fetch the job (raising `ValueError` if absent), persist `PROCESSING` and
bump the `processing` label, then run the `try` body with its two `except`
handlers, and in `finally` remove the local video and zip files and observe
the duration histogram.  Note that the `try` block only starts after the
`PROCESSING` write, so the `finally` does not cover job-not-found or a
failing `PROCESSING` write. -/
def execute (env : Env) (cfg : Config) (video_id : Nat) (filename : String)
    (fs0 : List String) : ExecState × Except PyError Unit :=
  let st := initState fs0
  match env.job with
  | none =>
    (st, Except.error (PyError.valueError
      ("Video " ++ toString video_id ++ " not found")))
  | some video0 =>
    let video := { video0 with status := VideoStatus.processing }
    let st := { st with updateCalls := st.updateCalls ++ [video] }
    match env.updProcessingFail with
    | some e => (st, Except.error e)
    | none =>
      let st := { st with persisted := st.persisted ++ [video],
                          metricProcessing := st.metricProcessing + 1 }
      let video_local_path := pathJoin cfg.uploads_dir filename
      let b := tryBody env cfg video video_id video_local_path st
      let h :=
        match b.outcome with
        | Except.ok _ => (b.st, (Except.ok () : Except PyError Unit))
        | Except.error e => errorHandler env b.video filename e b.st
      let stf := { h.1 with fs := fsRemove h.1.fs video_local_path }
      let stf :=
        match b.zip_local_path with
        | some p => { stf with fs := fsRemove stf.fs p }
        | none => stf
      let stf := { stf with durationObs :=
        stf.durationObs ++ [env.clock0 + (env.elapsed : Int) - env.clock0] }
      (stf, h.2)

/-- The earliest failure among the three `try`-body external operations
(download, extraction, upload), in program order. -/
def bodyFirstError (env : Env) : Option PyError :=
  match env.downloadFail with
  | some e => some e
  | none =>
    match env.extractResult with
    | Except.error e => some e
    | Except.ok _ => env.uploadFail

/-! ## The consumption callback (`app/main.py`, `callback`) -/

/-- The fields the callback reads from the decoded message body via
`data.get`: `none` models an absent key. -/
structure MsgData where
  video_id : Option Nat
  filename : Option String
deriving DecidableEq, Repr

/-- A delivered message body: either it fails `json.loads`, or it decodes
to an object from which the two fields are read. -/
inductive Body
  | invalid (raw : String)
  | valid (data : MsgData)
deriving DecidableEq, Repr

/-- Ordered observable events of one callback run. -/
inductive CbEvent
  | pipelineCall
  | ack
deriving DecidableEq, Repr

/-- Result of one callback run: the event order, how many `basic_ack`
calls happened, the pipeline run (when one was made), and whether the
callback returned normally or let an exception escape to the consumer. -/
structure CallbackResult where
  events : List CbEvent
  acks : Nat
  exec : Option (ExecState × Except PyError Unit)
  outcome : Except PyError Unit
deriving Repr

/-- Python truthiness of the `video_id` field (`if not video_id`). -/
def truthyNat : Option Nat → Bool
  | none => false
  | some n => n != 0

/-- Python truthiness of the `filename` field (`if not filename`). -/
def truthyStr : Option String → Bool
  | none => false
  | some s => s != ""

/-- `callback(ch, method, properties, body)` from `app/main.py`:
`json.loads` runs before any `try`, so an undecodable body raises out of
the callback with no ack; a message with a missing-or-falsy field is acked
and dropped; otherwise the pipeline runs inside `try/except Exception`
whose `finally` closes the session and acks, so the callback itself always
returns normally. -/
def callback (env : Env) (cfg : Config) (fs0 : List String) (body : Body) :
    CallbackResult :=
  match body with
  | Body.invalid raw =>
    { events := [], acks := 0, exec := none,
      outcome := Except.error (PyError.valueError
        ("Expecting value: " ++ raw)) }
  | Body.valid data =>
    if !truthyNat data.video_id || !truthyStr data.filename then
      { events := [CbEvent.ack], acks := 1, exec := none,
        outcome := Except.ok () }
    else
      let vid := data.video_id.getD 0
      let fn := data.filename.getD ""
      let r := execute env cfg vid fn fs0
      { events := [CbEvent.pipelineCall, CbEvent.ack], acks := 1,
        exec := some r, outcome := Except.ok () }

/-- Repository calls observable from a callback run: one `get_by_id`, the
`update_status` calls and the email lookups, when the pipeline ran. -/
def cbRepoCalls (r : CallbackResult) : Nat :=
  match r.exec with
  | none => 0
  | some (st, _) => 1 + st.updateCalls.length + st.emailLookups

/-- Notifier calls observable from a callback run. -/
def cbNotifications (r : CallbackResult) : Nat :=
  match r.exec with
  | none => 0
  | some (st, _) => st.notifications.length

/-- Metric events (counter bumps and histogram observations) observable
from a callback run. -/
def cbMetricEvents (r : CallbackResult) : Nat :=
  match r.exec with
  | none => 0
  | some (st, _) =>
    st.metricProcessing + st.metricCompleted + st.metricError +
      st.metricErrorsTotal + st.durationObs.length

/-! ## Concrete scenario objects

The scenario of the spec's test section and of
`tests/test_worker_use_cases.py`: job id 1, file `test.mp4`, archive
`test.zip`, bucket `test-bucket`. -/

/-- The worker configuration of the concrete scenario. -/
def cfgW : Config :=
  { uploads_dir := "/data/uploads", outputs_dir := "/data/outputs",
    s3_bucket_name := "test-bucket" }

/-- The pending job record of the concrete scenario. -/
def vidW : Video :=
  { id := 1, filename := "test.mp4", status := VideoStatus.pending }

/-- An environment in which every external call succeeds. -/
def envOkW : Env :=
  { job := some vidW, extractResult := Except.ok "test.zip", elapsed := 3 }

/-- An environment in which the job id is unknown to the repository. -/
def envNoJobW : Env :=
  { job := none, extractResult := Except.ok "test.zip" }

/-- An environment in which everything up to and including the upload
succeeds but the `COMPLETED` status write raises. -/
def envC6W : Env :=
  { job := some vidW, extractResult := Except.ok "test.zip",
    updCompletedFail := some (PyError.generic "db down") }

/-- An environment in which the upload raises a `ClientError` and the
job's user has a resolvable email address. -/
def envS3FailW : Env :=
  { job := some vidW, extractResult := Except.ok "test.zip",
    uploadFail := some (PyError.clientError "denied"),
    userEmail := some "user@example.com" }

/-- The well-formed message body of the concrete scenario. -/
def dataW : MsgData := { video_id := some 1, filename := some "test.mp4" }

/-! ## Helper lemmas -/

/-- The status of the terminal `update_status` call determined by the
first body failure: `COMPLETED` when the body succeeds, `ERROR` otherwise. -/
def terminalOf (env : Env) : VideoStatus :=
  match bodyFirstError env with
  | none => VideoStatus.completed
  | some _ => VideoStatus.error

theorem errorHandler_fs (env : Env) (video : Video) (filename : String)
    (e : PyError) (st : ExecState) :
    (errorHandler env video filename e st).1.fs = st.fs := by
  rcases hue : env.updErrorFail with _ | e2 <;>
  rcases hem : env.userEmail with _ | em <;>
  rcases hnf : env.notifyFail with _ | e3 <;>
  simp [errorHandler, hue, hem, hnf]

theorem errorHandler_durationObs (env : Env) (video : Video)
    (filename : String) (e : PyError) (st : ExecState) :
    (errorHandler env video filename e st).1.durationObs = st.durationObs := by
  rcases hue : env.updErrorFail with _ | e2 <;>
  rcases hem : env.userEmail with _ | em <;>
  rcases hnf : env.notifyFail with _ | e3 <;>
  simp [errorHandler, hue, hem, hnf]

theorem execute_status_calls (env : Env) (cfg : Config) (video_id : Nat)
    (filename : String) (fs0 : List String) (v0 : Video)
    (hjob : env.job = some v0)
    (hp : env.updProcessingFail = none)
    (hc : env.updCompletedFail = none)
    (he : env.updErrorFail = none) :
    (execute env cfg video_id filename fs0).1.updateCalls.map
        (fun v => v.status) = [VideoStatus.processing, terminalOf env] ∧
    (execute env cfg video_id filename fs0).1.persisted.map
        (fun v => v.status) = [VideoStatus.processing, terminalOf env] := by
  rcases hdl : env.downloadFail with _ | e1 <;>
  rcases hex : env.extractResult with e2 | z <;>
  rcases hul : env.uploadFail with _ | e3 <;>
  rcases hem : env.userEmail with _ | em <;>
  rcases hnf : env.notifyFail with _ | e4 <;>
  simp [execute, tryBody, errorHandler, initState, terminalOf, bodyFirstError,
    hjob, hp, hc, he, hdl, hex, hul, hem, hnf]

/-! ## Claims -/

/-- C2: for every pipeline run on an existing job whose repository writes
do not fail, exactly two `update_status` calls occur, the first with
status `PROCESSING` and the second with exactly one terminal status out of
`COMPLETED` and `ERROR`, and both calls are persisted in that order, so
the terminal status is the final persisted status. -/
theorem C2_two_updates (env : Env) (cfg : Config) (video_id : Nat)
    (filename : String) (fs0 : List String) (v0 : Video)
    (hjob : env.job = some v0)
    (hp : env.updProcessingFail = none)
    (hc : env.updCompletedFail = none)
    (he : env.updErrorFail = none) :
    ∃ t, (t = VideoStatus.completed ∨ t = VideoStatus.error) ∧
      (execute env cfg video_id filename fs0).1.updateCalls.map
        (fun v => v.status) = [VideoStatus.processing, t] ∧
      (execute env cfg video_id filename fs0).1.persisted.map
        (fun v => v.status) = [VideoStatus.processing, t] :=
  ⟨terminalOf env,
    by unfold terminalOf; cases bodyFirstError env <;> simp,
    (execute_status_calls env cfg video_id filename fs0 v0 hjob hp hc he).1,
    (execute_status_calls env cfg video_id filename fs0 v0 hjob hp hc he).2⟩

/-- Witness for C2 at the concrete all-success scenario. -/
theorem C2_two_updates_witness :
    envOkW.job = some vidW ∧
    ∃ t, (t = VideoStatus.completed ∨ t = VideoStatus.error) ∧
      (execute envOkW cfgW 1 "test.mp4" []).1.updateCalls.map
        (fun v => v.status) = [VideoStatus.processing, t] ∧
      (execute envOkW cfgW 1 "test.mp4" []).1.persisted.map
        (fun v => v.status) = [VideoStatus.processing, t] :=
  ⟨rfl, C2_two_updates envOkW cfgW 1 "test.mp4" [] vidW rfl rfl rfl rfl⟩

/-- C7: for every delivered message that passes the validity check, the
callback invokes the pipeline and then acknowledges exactly once, in that
order, and returns normally whatever the pipeline's outcome, so a failing
job never terminates the consumption loop. -/
theorem C7_ack_after_pipeline (env : Env) (cfg : Config) (fs0 : List String)
    (data : MsgData)
    (hid : truthyNat data.video_id = true)
    (hfn : truthyStr data.filename = true) :
    (callback env cfg fs0 (Body.valid data)).events =
      [CbEvent.pipelineCall, CbEvent.ack] ∧
    (callback env cfg fs0 (Body.valid data)).acks = 1 ∧
    (callback env cfg fs0 (Body.valid data)).outcome = Except.ok () ∧
    (callback env cfg fs0 (Body.valid data)).exec =
      some (execute env cfg (data.video_id.getD 0)
        (data.filename.getD "") fs0) := by
  simp [callback, hid, hfn]

/-- Witness for C7: the job-not-found environment makes the pipeline
raise, yet the callback still acknowledges exactly once afterwards. -/
theorem C7_ack_after_pipeline_witness :
    truthyNat dataW.video_id = true ∧
    (callback envNoJobW cfgW [] (Body.valid dataW)).events =
      [CbEvent.pipelineCall, CbEvent.ack] ∧
    (callback envNoJobW cfgW [] (Body.valid dataW)).acks = 1 ∧
    (callback envNoJobW cfgW [] (Body.valid dataW)).outcome = Except.ok () ∧
    (execute envNoJobW cfgW 1 "test.mp4" []).2 =
      Except.error (PyError.valueError "Video 1 not found") :=
  ⟨by decide,
    (C7_ack_after_pipeline envNoJobW cfgW [] dataW (by decide) (by decide)).1,
    (C7_ack_after_pipeline envNoJobW cfgW [] dataW (by decide) (by decide)).2.1,
    (C7_ack_after_pipeline envNoJobW cfgW [] dataW (by decide) (by decide)).2.2.1,
    rfl⟩

/-- C8: a delivered message missing the `video_id` or `filename` field is
acknowledged once and dropped: no pipeline run, no repository call, no
notification and no metric side effect. -/
theorem C8_malformed_dropped (env : Env) (cfg : Config) (fs0 : List String)
    (data : MsgData)
    (h : data.video_id = none ∨ data.filename = none) :
    (callback env cfg fs0 (Body.valid data)).events = [CbEvent.ack] ∧
    (callback env cfg fs0 (Body.valid data)).acks = 1 ∧
    (callback env cfg fs0 (Body.valid data)).exec = none ∧
    cbRepoCalls (callback env cfg fs0 (Body.valid data)) = 0 ∧
    cbNotifications (callback env cfg fs0 (Body.valid data)) = 0 ∧
    cbMetricEvents (callback env cfg fs0 (Body.valid data)) = 0 := by
  rcases h with h | h <;>
  simp [callback, truthyNat, truthyStr, h,
    cbRepoCalls, cbNotifications, cbMetricEvents]

/-- Witness for C8 at a message with no `filename` key. -/
theorem C8_malformed_dropped_witness :
    (callback envOkW cfgW []
      (Body.valid { video_id := some 1, filename := none })).events =
        [CbEvent.ack] ∧
    (callback envOkW cfgW []
      (Body.valid { video_id := some 1, filename := none })).acks = 1 ∧
    cbRepoCalls (callback envOkW cfgW []
      (Body.valid { video_id := some 1, filename := none })) = 0 :=
  ⟨(C8_malformed_dropped envOkW cfgW []
      { video_id := some 1, filename := none } (Or.inr rfl)).1,
    (C8_malformed_dropped envOkW cfgW []
      { video_id := some 1, filename := none } (Or.inr rfl)).2.1,
    (C8_malformed_dropped envOkW cfgW []
      { video_id := some 1, filename := none } (Or.inr rfl)).2.2.2.1⟩

/-- C9: a message whose fields are present but falsy (`video_id = 0` or
`filename = ""`) is classified as malformed by the truthiness check and is
acknowledged and dropped without invoking the pipeline. -/
theorem C9_falsy_dropped (env : Env) (cfg : Config) (fs0 : List String)
    (data : MsgData)
    (h : data.video_id = some 0 ∨ data.filename = some "") :
    (callback env cfg fs0 (Body.valid data)).events = [CbEvent.ack] ∧
    (callback env cfg fs0 (Body.valid data)).acks = 1 ∧
    (callback env cfg fs0 (Body.valid data)).exec = none := by
  rcases h with h | h <;>
  simp [callback, truthyNat, truthyStr, h]

/-- Witness for C9 at a message carrying `video_id = 0`. -/
theorem C9_falsy_dropped_witness :
    (callback envOkW cfgW []
      (Body.valid { video_id := some 0, filename := some "test.mp4" })).events
        = [CbEvent.ack] ∧
    (callback envOkW cfgW []
      (Body.valid { video_id := some 0, filename := some "test.mp4" })).exec
        = none :=
  ⟨(C9_falsy_dropped envOkW cfgW []
      { video_id := some 0, filename := some "test.mp4" } (Or.inl rfl)).1,
    (C9_falsy_dropped envOkW cfgW []
      { video_id := some 0, filename := some "test.mp4" } (Or.inl rfl)).2.2⟩

/-- C1, counterexample: in the all-success scenario with job id 1 and
archive `test.zip`, the upload key is `processed_videos/1/test.zip`, which
does not match the claimed pattern `processed/{jobId}/{archiveName}`
(here `processed/1/test.zip`), and the persisted address embeds the
`processed_videos` key. -/
theorem C1_counterexample :
    ((execute envOkW cfgW 1 "test.mp4" []).1.uploads.map (fun u => u.key) =
      ["processed_videos/1/test.zip"]) ∧
    ("processed_videos/1/test.zip" ≠ "processed/1/test.zip") ∧
    ((execute envOkW cfgW 1 "test.mp4" []).1.persisted.map
        (fun v => v.zip_path) =
      [none,
       some "https://test-bucket.s3.amazonaws.com/processed_videos/1/test.zip"]) ∧
    ((execute envOkW cfgW 1 "test.mp4" []).2 = Except.ok ()) :=
  ⟨rfl, by decide, rfl, rfl⟩

/-- C1, amended: on success the archive is uploaded exactly once under the
key `processed_videos/{jobId}/{archiveName}` and the persisted
artifactLocation is the S3 address with that same key; on a failure of
download, extraction or upload, every persisted state has artifactLocation
unset. -/
theorem C1_amended_key (env : Env) (cfg : Config) (video_id : Nat)
    (filename : String) (fs0 : List String) (v0 : Video)
    (hjob : env.job = some v0)
    (hzip : v0.zip_path = none) :
    ((execute env cfg video_id filename fs0).2 = Except.ok () →
      ∃ z, env.extractResult = Except.ok z ∧
        (execute env cfg video_id filename fs0).1.uploads =
          [⟨pathJoin cfg.outputs_dir z, cfg.s3_bucket_name,
            s3ZipKey video_id z⟩] ∧
        (execute env cfg video_id filename fs0).1.persisted.map
            (fun v => v.zip_path) =
          [none, some (s3Url cfg.s3_bucket_name (s3ZipKey video_id z))]) ∧
    (∀ e, bodyFirstError env = some e →
      ∀ v ∈ (execute env cfg video_id filename fs0).1.persisted,
        v.zip_path = none) := by
  rcases hp : env.updProcessingFail with _ | e0 <;>
  rcases hdl : env.downloadFail with _ | e1 <;>
  rcases hex : env.extractResult with e2 | z <;>
  rcases hul : env.uploadFail with _ | e3 <;>
  rcases huc : env.updCompletedFail with _ | e4 <;>
  rcases hue : env.updErrorFail with _ | e5 <;>
  rcases hem : env.userEmail with _ | em <;>
  rcases hnf : env.notifyFail with _ | e6 <;>
  simp [execute, tryBody, errorHandler, initState, bodyFirstError,
    hjob, hzip, hp, hdl, hex, hul, huc, hue, hem, hnf]

/-- Witness for C1 (amended) at the concrete all-success scenario. -/
theorem C1_amended_key_witness :
    envOkW.job = some vidW ∧
    (((execute envOkW cfgW 1 "test.mp4" []).2 = Except.ok () →
      ∃ z, envOkW.extractResult = Except.ok z ∧
        (execute envOkW cfgW 1 "test.mp4" []).1.uploads =
          [⟨pathJoin cfgW.outputs_dir z, cfgW.s3_bucket_name,
            s3ZipKey 1 z⟩] ∧
        (execute envOkW cfgW 1 "test.mp4" []).1.persisted.map
            (fun v => v.zip_path) =
          [none, some (s3Url cfgW.s3_bucket_name (s3ZipKey 1 z))]) ∧
    (∀ e, bodyFirstError envOkW = some e →
      ∀ v ∈ (execute envOkW cfgW 1 "test.mp4" []).1.persisted,
        v.zip_path = none)) :=
  ⟨rfl, C1_amended_key envOkW cfgW 1 "test.mp4" [] vidW rfl rfl⟩

/-- C3, counterexample: the job-not-found abort is an exit path of the
pipeline on which the duration metric is observed zero times, because the
`ValueError` is raised before the `try/finally` block is entered. -/
theorem C3_counterexample_job_not_found :
    (execute envNoJobW cfgW 1 "test.mp4" []).1.durationObs = [] ∧
    (execute envNoJobW cfgW 1 "test.mp4" []).2 =
      Except.error (PyError.valueError "Video 1 not found") :=
  ⟨rfl, rfl⟩

/-- C3, amended: on every run that enters the pipeline body (the job
exists and the PROCESSING write succeeds), the duration metric is
observed exactly once with a nonnegative value, on every exit path of the
body; it is not observed on the job-not-found abort or on a failing
PROCESSING write, which exit before the try/finally block. -/
theorem C3_amended_duration (env : Env) (cfg : Config) (video_id : Nat)
    (filename : String) (fs0 : List String) (v0 : Video)
    (hjob : env.job = some v0)
    (hp : env.updProcessingFail = none) :
    (execute env cfg video_id filename fs0).1.durationObs =
      [(env.elapsed : Int)] ∧
    (0 : Int) ≤ ((env.elapsed : Int)) := by
  constructor
  · rcases hdl : env.downloadFail with _ | e1 <;>
    rcases hex : env.extractResult with e2 | z <;>
    rcases hul : env.uploadFail with _ | e3 <;>
    rcases huc : env.updCompletedFail with _ | e4 <;>
    simp [execute, tryBody, initState, errorHandler_durationObs,
      hjob, hp, hdl, hex, hul, huc]
  · exact Int.natCast_nonneg env.elapsed

/-- Witness for C3 (amended) at the concrete all-success scenario. -/
theorem C3_amended_duration_witness :
    envOkW.job = some vidW ∧
    (execute envOkW cfgW 1 "test.mp4" []).1.durationObs =
      [(envOkW.elapsed : Int)] ∧
    (0 : Int) ≤ ((envOkW.elapsed : Int)) :=
  ⟨rfl, (C3_amended_duration envOkW cfgW 1 "test.mp4" [] vidW rfl rfl).1,
    (C3_amended_duration envOkW cfgW 1 "test.mp4" [] vidW rfl rfl).2⟩

/-- C4: on every exit path of the pipeline body, the job's local input
video file and, whenever extraction produced an archive, the local
archive file are absent from the local filesystem when the pipeline
returns or re-raises. -/
theorem C4_cleanup (env : Env) (cfg : Config) (video_id : Nat)
    (filename : String) (fs0 : List String) (v0 : Video)
    (hjob : env.job = some v0)
    (hp : env.updProcessingFail = none) :
    pathJoin cfg.uploads_dir filename ∉
      (execute env cfg video_id filename fs0).1.fs ∧
    (∀ z, env.downloadFail = none → env.extractResult = Except.ok z →
      pathJoin cfg.outputs_dir z ∉
        (execute env cfg video_id filename fs0).1.fs) := by
  rcases hdl : env.downloadFail with _ | e1 <;>
  rcases hex : env.extractResult with e2 | z <;>
  rcases hul : env.uploadFail with _ | e3 <;>
  rcases huc : env.updCompletedFail with _ | e4 <;>
  simp [execute, tryBody, initState, errorHandler_fs, fsRemove,
    hjob, hp, hdl, hex, hul, huc]

/-- Witness for C4 at the scenario where the upload raises: the input and
archive files are both gone afterwards. -/
theorem C4_cleanup_witness :
    envS3FailW.job = some vidW ∧
    pathJoin cfgW.uploads_dir "test.mp4" ∉
      (execute envS3FailW cfgW 1 "test.mp4" []).1.fs ∧
    (∀ z, envS3FailW.downloadFail = none →
      envS3FailW.extractResult = Except.ok z →
      pathJoin cfgW.outputs_dir z ∉
        (execute envS3FailW cfgW 1 "test.mp4" []).1.fs) :=
  ⟨rfl, (C4_cleanup envS3FailW cfgW 1 "test.mp4" [] vidW rfl rfl).1,
    (C4_cleanup envS3FailW cfgW 1 "test.mp4" [] vidW rfl rfl).2⟩

/-- C5: for every failure of download, extraction or upload after the
PROCESSING transition (with the handler's own repository write and
notifier call succeeding), the pipeline persists `ERROR`, bumps the
`error` outcome label and the error counter, looks up the owner's email
exactly once, notifies that email — when resolvable — with the filename
and a cause string that distinguishes a storage-operation failure
(prefixed `S3 Operation Failed: `) from a generic one, and re-raises the
original error. -/
theorem C5_failure_handling (env : Env) (cfg : Config) (video_id : Nat)
    (filename : String) (fs0 : List String) (v0 : Video) (e : PyError)
    (hjob : env.job = some v0)
    (hp : env.updProcessingFail = none)
    (hbody : bodyFirstError env = some e)
    (hue : env.updErrorFail = none)
    (hnf : env.notifyFail = none) :
    (execute env cfg video_id filename fs0).2 = Except.error e ∧
    (execute env cfg video_id filename fs0).1.persisted.map
      (fun v => v.status) = [VideoStatus.processing, VideoStatus.error] ∧
    (execute env cfg video_id filename fs0).1.metricError = 1 ∧
    (execute env cfg video_id filename fs0).1.metricErrorsTotal = 1 ∧
    (execute env cfg video_id filename fs0).1.emailLookups = 1 ∧
    (execute env cfg video_id filename fs0).1.notifications =
      (match env.userEmail with
       | some em => [⟨em, filename, errorCause e⟩]
       | none => []) ∧
    (∀ m, e = PyError.clientError m →
      errorCause e = "S3 Operation Failed: " ++ m) ∧
    (∀ m, e = PyError.generic m → errorCause e = m) := by
  rcases hdl : env.downloadFail with _ | e1 <;>
  rcases hex : env.extractResult with e2 | z <;>
  rcases hul : env.uploadFail with _ | e3 <;>
  rcases hem : env.userEmail with _ | em <;>
  simp [bodyFirstError, hdl, hex, hul] at hbody <;>
  subst hbody <;>
  simp [execute, tryBody, errorHandler, initState, errorCause,
    hjob, hp, hue, hnf, hdl, hex, hul, hem] <;>
  exact ⟨fun m hm => by subst hm; rfl, fun m hm => by subst hm; rfl⟩

/-- Witness for C5 at the scenario where the upload raises a
`ClientError` and the user's email resolves. -/
theorem C5_failure_handling_witness :
    bodyFirstError envS3FailW = some (PyError.clientError "denied") ∧
    (execute envS3FailW cfgW 1 "test.mp4" []).2 =
      Except.error (PyError.clientError "denied") ∧
    (execute envS3FailW cfgW 1 "test.mp4" []).1.notifications =
      (match envS3FailW.userEmail with
       | some em => [⟨em, "test.mp4",
          errorCause (PyError.clientError "denied")⟩]
       | none => []) :=
  ⟨rfl,
    (C5_failure_handling envS3FailW cfgW 1 "test.mp4" [] vidW
      (PyError.clientError "denied") rfl rfl rfl rfl rfl).1,
    (C5_failure_handling envS3FailW cfgW 1 "test.mp4" [] vidW
      (PyError.clientError "denied") rfl rfl rfl rfl rfl).2.2.2.2.2.1⟩

/-- C6, counterexample: when the upload succeeds but the COMPLETED status
write raises, the subsequent ERROR write persists a state whose status is
not COMPLETED yet whose artifactLocation is set, violating the claimed
if-and-only-if. -/
theorem C6_counterexample :
    ((execute envC6W cfgW 1 "test.mp4" []).1.persisted.map
        (fun v => (v.status, v.zip_path)) =
      [(VideoStatus.processing, none),
       (VideoStatus.error,
        some "https://test-bucket.s3.amazonaws.com/processed_videos/1/test.zip")]) ∧
    (∃ v ∈ (execute envC6W cfgW 1 "test.mp4" []).1.persisted,
      v.status ≠ VideoStatus.completed ∧ v.zip_path ≠ none) :=
  ⟨rfl, by decide⟩

/-- C6, amended: provided the COMPLETED status write does not itself
fail, every state persisted via `update_status` has artifactLocation set
iff its status is COMPLETED, and the persisted status sequence only moves
forward: it is one of `[]`, `[PROCESSING]`, `[PROCESSING, COMPLETED]`,
`[PROCESSING, ERROR]`. -/
theorem C6_amended_invariant (env : Env) (cfg : Config) (video_id : Nat)
    (filename : String) (fs0 : List String) (v0 : Video)
    (hjob : env.job = some v0)
    (hzip : v0.zip_path = none)
    (hc : env.updCompletedFail = none) :
    (∀ v ∈ (execute env cfg video_id filename fs0).1.persisted,
      (v.zip_path ≠ none ↔ v.status = VideoStatus.completed)) ∧
    ((execute env cfg video_id filename fs0).1.persisted.map
        (fun v => v.status) = [] ∨
     (execute env cfg video_id filename fs0).1.persisted.map
        (fun v => v.status) = [VideoStatus.processing] ∨
     (execute env cfg video_id filename fs0).1.persisted.map
        (fun v => v.status) = [VideoStatus.processing,
          VideoStatus.completed] ∨
     (execute env cfg video_id filename fs0).1.persisted.map
        (fun v => v.status) = [VideoStatus.processing,
          VideoStatus.error]) := by
  rcases hp : env.updProcessingFail with _ | e0 <;>
  rcases hdl : env.downloadFail with _ | e1 <;>
  rcases hex : env.extractResult with e2 | z <;>
  rcases hul : env.uploadFail with _ | e3 <;>
  rcases hue : env.updErrorFail with _ | e5 <;>
  rcases hem : env.userEmail with _ | em <;>
  rcases hnf : env.notifyFail with _ | e6 <;>
  simp [execute, tryBody, errorHandler, initState,
    hjob, hzip, hp, hc, hdl, hex, hul, hue, hem, hnf]

/-- Witness for C6 (amended) at the concrete all-success scenario. -/
theorem C6_amended_invariant_witness :
    vidW.zip_path = none ∧
    (∀ v ∈ (execute envOkW cfgW 1 "test.mp4" []).1.persisted,
      (v.zip_path ≠ none ↔ v.status = VideoStatus.completed)) :=
  ⟨rfl,
    (C6_amended_invariant envOkW cfgW 1 "test.mp4" [] vidW rfl rfl rfl).1⟩

/-- C10: a body that fails JSON decoding raises out of the callback before
any acknowledgment: no ack, no pipeline run, and the exception escapes to
the consumer, since decoding happens before the try/finally that
guarantees the ack. -/
theorem C10_invalid_json_no_ack (env : Env) (cfg : Config)
    (fs0 : List String) (raw : String) :
    callback env cfg fs0 (Body.invalid raw) =
      { events := [], acks := 0, exec := none,
        outcome := Except.error (PyError.valueError
          ("Expecting value: " ++ raw)) } :=
  rfl

end Worker

